import Mathlib

/-!
Verification of the classroom image/chat application's core rules.

The TypeScript route handlers and the Prisma schema are shallowly embedded:
each database table becomes a list of rows, each route handler becomes a
pure function from the store (plus the caller's cookie-derived identity and
the outcome of the remote generation call, which is passed in as a value of
`Except`) to a response and an updated store.  Timestamps are modelled as
natural numbers supplied by the caller; random draws are modelled as an
explicit stream of candidate strings.
-/

namespace Classroom

/-- Status of a `PromptSubmission` (`SubmissionStatus` enum; default `PENDING`). -/
inductive SubmissionStatus where
  | PENDING
  | SUCCESS
  | ERROR
deriving DecidableEq, Repr

/-- Sender of a `ChatMessage` (`'STUDENT'` or `'AI'` in the schema). -/
inductive Sender where
  | STUDENT
  | AI
deriving DecidableEq, Repr

/-- A `Session` row (migration `src/unnamed/part_001`). -/
structure Session where
  id : String
  passwordHash : String
  isActive : Bool
  createdAt : Nat
  endedAt : Option Nat
deriving DecidableEq, Repr

/-- A `Student` row (migration `src/unnamed/part_000`). -/
structure Student where
  id : String
  username : String
  passwordHash : String
  sessionId : String
deriving DecidableEq, Repr

/-- A `PromptSubmission` row (migration `src/unnamed/part_000`). -/
structure PromptSubmission where
  id : String
  sessionId : String
  prompt : String
  role : String
  studentId : Option String
  rootSubmissionId : Option String
  parentSubmissionId : Option String
  revisionIndex : Nat
  status : SubmissionStatus
  imageData : Option String
  imageMimeType : Option String
  errorMessage : Option String
  isShared : Bool
deriving DecidableEq, Repr

/-- A `ChatThread` row (migration `add_chat_support`). -/
structure ChatThread where
  id : String
  title : String
  sessionId : String
  studentId : String
  createdAt : Nat
  updatedAt : Nat
deriving DecidableEq, Repr

/-- A `ChatMessage` row (migration `add_chat_support`); `studentId` is null
for AI messages. -/
structure ChatMessage where
  id : String
  content : String
  sender : Sender
  threadId : String
  studentId : Option String
deriving DecidableEq, Repr

/-- The persistent store: one list of rows per table. -/
structure DB where
  sessions : List Session
  students : List Student
  submissions : List PromptSubmission
  threads : List ChatThread
  messages : List ChatMessage
deriving DecidableEq, Repr

/-- The identity carried by the three cookies read by
`getSessionFromCookies` (`src/src/lib/auth.ts`): session id, role and
student id, each possibly absent. -/
structure Auth where
  sessionId : Option String
  role : Option String
  studentId : Option String
deriving DecidableEq, Repr

/-- The observable outcome of a route handler: the HTTP status and the
`message` field of the JSON body (empty for success responses, whose payload
is recovered from the returned store). -/
structure ApiResponse where
  status : Nat
  message : String
deriving DecidableEq, Repr

/-! ## Session lifecycle (`src/unnamed/part_003`, `src/src/lib/auth.ts`,
`src/src/app/api/session/end/route.ts`) -/

/-- `endExistingSessions` (`src/src/lib/auth.ts` lines 38-43):
sets `isActive := false` and `endedAt := now` on every active session. -/
def endExistingSessions (now : Nat) (ss : List Session) : List Session :=
  ss.map (fun s => if s.isActive then { s with isActive := false, endedAt := some now } else s)

/-- `POST /api/session` start handler (`src/unnamed/part_003`): ends every
active session, then creates the new session with `isActive := true`.
Only the `Session` table is modelled; cookies and the password hash are
not relevant to the claims about it. -/
def startSession (ss : List Session) (newId pwHash : String) (now : Nat) : List Session :=
  { id := newId, passwordHash := pwHash, isActive := true,
    createdAt := now, endedAt := none } :: endExistingSessions now ss

/-- `POST /api/session/join`: reads the active session and sets cookies but
never writes a `Session` row, so on the `Session` table it is the identity. -/
def joinSession (ss : List Session) : List Session :=
  ss

/-- `POST /api/session/end` (`src/src/app/api/session/end/route.ts`):
`updateMany where id = sessionId` setting `isActive := false, endedAt := now`. -/
def endSession (ss : List Session) (sid : String) (now : Nat) : List Session :=
  ss.map (fun s => if s.id = sid then { s with isActive := false, endedAt := some now } else s)

/-- One step of the session lifecycle as exercised by the three handlers. -/
inductive SessionOp where
  | start (newId pwHash : String) (now : Nat)
  | join
  | stop (sid : String) (now : Nat)

/-- Apply a lifecycle step to the `Session` table. -/
def applySessionOp (ss : List Session) : SessionOp → List Session
  | .start newId pwHash now => startSession ss newId pwHash now
  | .join => joinSession ss
  | .stop sid now => endSession ss sid now

/-- Number of rows with `isActive = true`. -/
def countActive (ss : List Session) : Nat :=
  (ss.filter (fun s => s.isActive)).length

/-! ## Submission lineage engine
(`src/src/app/api/images/generate/route.ts`) -/

/-- JavaScript `.trim()` (used by the zod schemas): drop leading and
trailing whitespace.  Defined structurally over the character list so that
concrete instances compute. -/
def trimWS (s : String) : String :=
  ⟨((s.data.dropWhile Char.isWhitespace).reverse.dropWhile Char.isWhitespace).reverse⟩

/-- JavaScript `.toLowerCase()`, structurally over the character list. -/
def lowerString (s : String) : String :=
  ⟨s.data.map Char.toLower⟩

/-- The chain root of a submission: `rootSubmissionId ?? id`
(used at generate line 258 and share-GET line 112). -/
def chainRoot (s : PromptSubmission) : String :=
  s.rootSubmissionId.getD s.id

/-- Result of the remote image call: base64 payload and mime type. -/
abbrev RemoteImage := String × String

/-- The count taken at generate lines 259-265: submissions of the caller's
session that are the chain root or point to it, with status `PENDING` or
`SUCCESS`. -/
def chainCountQuery (subs : List PromptSubmission) (sid rootId : String) : Nat :=
  (subs.filter (fun s => decide (s.sessionId = sid ∧
    (s.id = rootId ∨ s.rootSubmissionId = some rootId) ∧
    (s.status = SubmissionStatus.PENDING ∨ s.status = SubmissionStatus.SUCCESS)))).length

/-- The chain count in the words of the specification (claim C1): "the chain
members sharing the parent's root ... whose status is PENDING or SUCCESS",
with no session restriction. -/
def chainPendingSuccessCount (subs : List PromptSubmission) (rootId : String) : Nat :=
  (subs.filter (fun s => decide ((s.id = rootId ∨ s.rootSubmissionId = some rootId) ∧
    (s.status = SubmissionStatus.PENDING ∨ s.status = SubmissionStatus.SUCCESS)))).length

/-- Generate lines 276-322: insert the new `PENDING` row, call the remote
provider, then update the row to `SUCCESS` with the image payload or to
`ERROR` with the provider's message (returning a 502 in the latter case).
The remote outcome is passed in as `remote`. -/
def createAndGenerate (db : DB) (sid stid prompt : String)
    (parentId rootId : Option String) (revIdx : Nat) (newId : String)
    (remote : Except String RemoteImage) : ApiResponse × DB :=
  let sub : PromptSubmission :=
    { id := newId, sessionId := sid, prompt := prompt, role := "STUDENT",
      studentId := some stid, rootSubmissionId := rootId,
      parentSubmissionId := parentId, revisionIndex := revIdx,
      status := SubmissionStatus.PENDING, imageData := none,
      imageMimeType := none, errorMessage := none, isShared := false }
  let db1 : DB := { db with submissions := db.submissions ++ [sub] }
  match remote with
  | Except.ok img =>
      (⟨200, ""⟩, { db1 with submissions := db1.submissions.map (fun s =>
        if s.id = newId then
          { s with
              status := SubmissionStatus.SUCCESS,
              imageData := some img.1,
              imageMimeType := some img.2 }
        else s) })
  | Except.error msg =>
      (⟨502, msg⟩, { db1 with submissions := db1.submissions.map (fun s =>
        if s.id = newId then
          { s with status := SubmissionStatus.ERROR, errorMessage := some msg }
        else s) })

/-- `POST /api/images/generate` (lines 204-330): cookie checks, prompt
validation (`z.string().min(5)`), active-session check, parent checks and
chain cap for refinements, then creation and the remote call.  The fresh row
id and the remote outcome are parameters. -/
def generatePOST (db : DB) (auth : Auth) (prompt : String)
    (parentSubmissionId : Option String) (newId : String)
    (remote : Except String RemoteImage) : ApiResponse × DB :=
  match auth.sessionId, auth.role with
  | some sid, some role =>
    if role = "student" then
      match auth.studentId with
      | some stid =>
        if prompt.length < 5 then
          (⟨400, "Please write a longer prompt to help the AI."⟩, db)
        else
          match db.sessions.find? (fun s => decide (s.id = sid ∧ s.isActive)) with
          | none => (⟨403, "Session expired. Please ask the teacher to restart."⟩, db)
          | some _ =>
            match parentSubmissionId with
            | none => createAndGenerate db sid stid prompt none none 0 newId remote
            | some pid =>
              match db.submissions.find? (fun s => decide (s.id = pid)) with
              | none => (⟨404, "Original image not found for this session."⟩, db)
              | some parent =>
                if parent.sessionId ≠ sid then
                  (⟨404, "Original image not found for this session."⟩, db)
                else if parent.studentId ≠ some stid then
                  (⟨403, "You can only refine images you created."⟩, db)
                else if parent.imageData = none then
                  (⟨422, "Original image data is unavailable for refinement."⟩, db)
                else
                  let rootId := parent.rootSubmissionId.getD parent.id
                  let chainCount := chainCountQuery db.submissions sid rootId
                  if chainCount ≥ 3 then
                    (⟨400, "This image has no refinements remaining."⟩, db)
                  else
                    createAndGenerate db sid stid prompt (some pid) (some rootId)
                      chainCount newId remote
      | none => (⟨403, "Only students can generate images in this view."⟩, db)
    else (⟨403, "Only students can generate images in this view."⟩, db)
  | _, _ => (⟨401, "Join the classroom session before generating images."⟩, db)

/-! ## Listing and sharing (`src/src/app/api/images/share/route.ts`) -/

/-- One entry of the list response (keeping the fields the claims concern). -/
structure EnrichedSubmission where
  sub : PromptSubmission
  rootId : String
  remainingEdits : Nat
deriving DecidableEq, Repr

/-- The observable outcome of the list handler. -/
structure ListResult where
  status : Nat
  submissions : List EnrichedSubmission
deriving DecidableEq, Repr

/-- The prisma `where` filter built at share-GET lines 76-83: teachers see
every submission of the session; everyone else sees only `SUCCESS`
submissions that are shared or owned by the caller's student id. -/
def visibleTo (auth : Auth) (sid : String) (s : PromptSubmission) : Bool :=
  decide (s.sessionId = sid) &&
    (decide (auth.role = some "teacher") ||
      (decide (s.status = SubmissionStatus.SUCCESS) &&
        (s.isShared ||
          match auth.studentId with
          | some stid => decide (s.studentId = some stid)
          | none => false)))

/-- Number of `SUCCESS` rows of `subs` whose chain root is `rootId` — the
value the `successCounts` map of share-GET lines 109-114 associates to
`rootId` (0 when the key is absent). -/
def successCountIn (subs : List PromptSubmission) (rootId : String) : Nat :=
  (subs.filter (fun s =>
    decide (s.status = SubmissionStatus.SUCCESS ∧ chainRoot s = rootId))).length

/-- The enrichment of share-GET lines 116-128:
`remainingEdits = max(0, 3 − successCount)` where `successCount` is read
from the map with the miss fallback `?? (status === 'SUCCESS' ? 1 : 0)`. -/
def enrich (visible : List PromptSubmission) (s : PromptSubmission) : EnrichedSubmission :=
  let rootId := chainRoot s
  let c := successCountIn visible rootId
  let c1 := if c = 0 then (if s.status = SubmissionStatus.SUCCESS then 1 else 0) else c
  ⟨s, rootId, 3 - c1⟩

/-- `GET /api/images` (share-GET lines 61-131): with no session cookie or no
matching active session, answer 200 with an empty list; otherwise filter by
visibility and annotate each row.  Rows are kept in store order (the source
orders by `createdAt` descending, which none of the claims depend on). -/
def listGET (db : DB) (auth : Auth) : ListResult :=
  match auth.sessionId with
  | none => ⟨200, []⟩
  | some sid =>
    match db.sessions.find? (fun s => decide (s.id = sid ∧ s.isActive)) with
    | none => ⟨200, []⟩
    | some _ =>
      let visible := db.submissions.filter (visibleTo auth sid)
      ⟨200, visible.map (enrich visible)⟩

/-- The claimed annotation (claim C3 / spec 4.3): `SUCCESS` members of the
submission's chain across the whole store ("the set of submissions sharing
its root id"). -/
def specChainSuccessCount (db : DB) (s : PromptSubmission) : Nat :=
  successCountIn db.submissions (chainRoot s)

/-- `POST /api/images/share` (lines 12-55): student-only; the submission must
exist, belong to the caller's session and student id (else 403) and have
status `SUCCESS` (else 400); on success `isShared` is set to `share`. -/
def sharePOST (db : DB) (auth : Auth) (submissionId : String) (share : Bool) :
    ApiResponse × DB :=
  match auth.sessionId, auth.role, auth.studentId with
  | some sid, some role, some stid =>
    if role = "student" then
      match db.submissions.find? (fun s => decide (s.id = submissionId)) with
      | some sub =>
        if sub.sessionId = sid ∧ sub.studentId = some stid then
          if sub.status = SubmissionStatus.SUCCESS then
            (⟨200, ""⟩, { db with submissions := db.submissions.map (fun s =>
              if s.id = sub.id then { s with isShared := share } else s) })
          else (⟨400, "Only completed images can be shared."⟩, db)
        else (⟨403, "You can only manage sharing for your own images."⟩, db)
      | none => (⟨403, "You can only manage sharing for your own images."⟩, db)
    else (⟨403, "Student access required."⟩, db)
  | _, _, _ => (⟨403, "Student access required."⟩, db)

/-! ## Chat thread engine (`src/src/app/api/chat/threads/route.ts`,
`src/src/app/api/chat/threads/[threadId]/messages/route.ts`) -/

/-- The thread count taken at threads-POST lines 57-59. -/
def threadCountQuery (threads : List ChatThread) (sid stid : String) : Nat :=
  (threads.filter (fun t => decide (t.sessionId = sid ∧ t.studentId = stid))).length

/-- `POST /api/chat/threads` (lines 46-96): student-only; the optional title
is trimmed and capped at 80 characters by the schema; at 5 or more existing
threads for (session, student) the call fails with the limit message;
otherwise a thread is created, titled `Conversation (count+1)` when no
non-empty title was supplied. -/
def createThreadPOST (db : DB) (auth : Auth) (title : Option String)
    (newId : String) (now : Nat) : ApiResponse × DB :=
  match auth.sessionId, auth.role, auth.studentId with
  | some sid, some role, some stid =>
    if role = "student" then
      let trimmed := title.map trimWS
      if (trimmed.getD "").length > 80 then
        (⟨400, "String must contain at most 80 character(s)"⟩, db)
      else
        let threadCount := threadCountQuery db.threads sid stid
        if threadCount ≥ 5 then
          (⟨400, "You have reached the chat limit for this session."⟩, db)
        else
          let threadTitle :=
            match trimmed with
            | some t => if t.length > 0 then t else "Conversation " ++ toString (threadCount + 1)
            | none => "Conversation " ++ toString (threadCount + 1)
          (⟨200, ""⟩, { db with threads := db.threads ++
            [{ id := newId, title := threadTitle, sessionId := sid,
               studentId := stid, createdAt := now, updatedAt := now }] })
    else (⟨403, "Student access required."⟩, db)
  | _, _, _ => (⟨403, "Student access required."⟩, db)

/-- `POST /api/chat/threads/[threadId]/messages` (lines 147-222):
student-only; the thread must exist and belong to the caller (else 404); the
student message is persisted first; then the remote chat call runs (its
outcome is the `remote` parameter) — on failure the handler's catch block
answers 500 with the error message and nothing else is written; on success
the AI message is persisted and the thread's `updatedAt` is bumped. -/
def postMessagePOST (db : DB) (auth : Auth) (threadId content : String)
    (newStudentMsgId newAiMsgId : String) (now : Nat)
    (remote : Except String String) : ApiResponse × DB :=
  match auth.sessionId, auth.role, auth.studentId with
  | some sid, some role, some stid =>
    if role = "student" then
      match db.threads.find? (fun t => decide (t.id = threadId)) with
      | some t =>
        if t.sessionId = sid ∧ t.studentId = stid then
          let trimmed := trimWS content
          if trimmed.length < 1 then (⟨400, "Message cannot be empty"⟩, db)
          else if trimmed.length > 4000 then (⟨400, "Message is too long"⟩, db)
          else
            let sMsg : ChatMessage :=
              { id := newStudentMsgId, content := trimmed,
                sender := Sender.STUDENT, threadId := threadId, studentId := some stid }
            let db1 : DB := { db with messages := db.messages ++ [sMsg] }
            match remote with
            | Except.error e => (⟨500, e⟩, db1)
            | Except.ok text =>
                let aMsg : ChatMessage :=
                  { id := newAiMsgId, content := text,
                    sender := Sender.AI, threadId := threadId, studentId := none }
                (⟨200, ""⟩,
                  { db1 with
                      messages := db1.messages ++ [aMsg],
                      threads := db1.threads.map (fun th =>
                        if th.id = threadId then { th with updatedAt := now } else th) })
        else (⟨404, "Chat not found."⟩, db)
      | none => (⟨404, "Chat not found."⟩, db)
    else (⟨403, "Student access required."⟩, db)
  | _, _, _ => (⟨403, "Student access required."⟩, db)

/-! ## Teacher credential generation
(`src/src/app/api/teacher/students/generate/route.ts`) -/

/-- The retry loop of lines 43-46: draw candidates from `gen` until one's
lowercase form is not in `used`; `fuel` bounds the number of draws (the
source's `while` loop may in principle retry forever). Returns the chosen
username and the index of the next unconsumed draw. -/
def pickFresh (used : List String) (gen : Nat → String) :
    Nat → Nat → Option (String × Nat)
  | _, 0 => none
  | idx, fuel + 1 =>
    let candidate := gen idx
    if used.contains (lowerString candidate) then pickFresh used gen (idx + 1) fuel
    else some (candidate, idx + 1)

/-- The generation loop of lines 41-59: pick `count` fresh usernames, adding
each lowercase form to the used set as it goes. -/
def generateUsernames (used : List String) (gen : Nat → String)
    (idx fuel : Nat) : Nat → Option (List String × Nat)
  | 0 => some ([], idx)
  | count + 1 =>
    match pickFresh used gen idx fuel with
    | none => none
    | some (u, idx1) =>
      match generateUsernames (lowerString u :: used) gen idx1 fuel count with
      | none => none
      | some (rest, idx2) => some (u :: rest, idx2)

/-- Build the created `Student` rows from the chosen usernames
(each `tx.student.create` of lines 50-56); fresh row ids come from `newIds`. -/
def mkStudents (names : List String) (newIds : Nat → String)
    (i : Nat) (pwHash sid : String) : List Student :=
  match names with
  | [] => []
  | n :: rest =>
    { id := newIds i, username := n, passwordHash := pwHash, sessionId := sid } ::
      mkStudents rest newIds (i + 1) pwHash sid

/-- The students of one session. -/
def sessionStudents (db : DB) (sid : String) : List Student :=
  db.students.filter (fun st => decide (st.sessionId = sid))

/-- `POST /api/teacher/students/generate` (lines 22-69): teacher-only; the
requested count must be between 1 and 50 (`z.number().int().min(1).max(50)`);
the used set is the lowercase usernames already in the session; each new
student gets a fresh username via the retry loop.  `none` models a run of
the source's `while` loop that never finds a fresh name within `fuel`
draws.  All created students share one modelled password hash `pwHash`. -/
def studentsGeneratePOST (db : DB) (auth : Auth) (count : Nat)
    (gen : Nat → String) (fuel : Nat) (newIds : Nat → String)
    (pwHash : String) : Option (ApiResponse × DB) :=
  match auth.sessionId, auth.role with
  | some sid, some role =>
    if role = "teacher" then
      if count < 1 ∨ count > 50 then
        some (⟨400, "Number must be greater than or equal to 1"⟩, db)
      else
        let used := (sessionStudents db sid).map (fun st => lowerString st.username)
        match generateUsernames used gen 0 fuel count with
        | none => none
        | some (names, _) =>
            some (⟨200, ""⟩,
              { db with students := db.students ++ mkStudents names newIds 0 pwHash sid })
    else some (⟨403, "Teacher access only."⟩, db)
  | _, _ => some (⟨403, "Teacher access only."⟩, db)

/-- One credential-generation call with its own caller and inputs, for
stating the invariant across a sequence of calls. -/
structure GenCall where
  auth : Auth
  count : Nat
  gen : Nat → String
  fuel : Nat
  newIds : Nat → String
  pwHash : String

/-- Run a sequence of credential-generation calls, threading the store
(a call whose retry loop does not finish leaves the store unchanged). -/
def runGenCalls (db : DB) : List GenCall → DB
  | [] => db
  | c :: rest =>
    match studentsGeneratePOST db c.auth c.count c.gen c.fuel c.newIds c.pwHash with
    | some (_, db1) => runGenCalls db1 rest
    | none => runGenCalls db rest

/-- Case-insensitive pairwise distinctness of a session's usernames. -/
def UsernamesDistinctCI (db : DB) (sid : String) : Prop :=
  ((sessionStudents db sid).map (fun st => lowerString st.username)).Nodup

/-! ## A concrete store exercising the `remainingEdits` annotation -/

/-- A completed root submission owned by student a1 and shared with the
class. -/
def c3Root : PromptSubmission :=
  { id := "r1", sessionId := "s1", prompt := "a cat", role := "STUDENT",
    studentId := some "a1", rootSubmissionId := none, parentSubmissionId := none,
    revisionIndex := 0, status := SubmissionStatus.SUCCESS,
    imageData := some "i1", imageMimeType := some "image/png",
    errorMessage := none, isShared := true }

/-- The completed but unshared refinement of `c3Root`. -/
def c3Refinement : PromptSubmission :=
  { id := "r2", sessionId := "s1", prompt := "a calico cat", role := "STUDENT",
    studentId := some "a1", rootSubmissionId := some "r1",
    parentSubmissionId := some "r1", revisionIndex := 1,
    status := SubmissionStatus.SUCCESS, imageData := some "i2",
    imageMimeType := some "image/png", errorMessage := none, isShared := false }

/-- An active session with students a1 and b1 and the two-member chain. -/
def c3DB : DB :=
  { sessions := [{ id := "s1", passwordHash := "h", isActive := true,
                   createdAt := 0, endedAt := none }],
    students := [⟨"a1", "alice", "h", "s1"⟩, ⟨"b1", "bob", "h", "s1"⟩],
    submissions := [c3Root, c3Refinement], threads := [], messages := [] }

/-- Student b1's identity cookies for the store above. -/
def c3Auth : Auth := ⟨some "s1", some "student", some "b1"⟩

end Classroom

namespace Classroom

theorem countActive_endExistingSessions (now : Nat) (ss : List Session) :
    countActive (endExistingSessions now ss) = 0 := by
  induction ss with
  | nil => rfl
  | cons s rest ih =>
      by_cases h : s.isActive <;>
        simp [countActive, endExistingSessions, h, List.filter] at ih ⊢ <;>
        simpa [countActive, endExistingSessions] using ih

theorem countActive_endSession (ss : List Session) (sid : String) (now : Nat) :
    countActive (endSession ss sid now) ≤ countActive ss := by
  induction ss with
  | nil => simp [endSession]
  | cons s rest ih =>
      by_cases h : s.id = sid <;> by_cases h2 : s.isActive <;>
        simp [countActive, endSession, h, h2, List.filter] at ih ⊢ <;>
        omega

theorem countActive_startSession (ss : List Session) (newId pwHash : String) (now : Nat) :
    countActive (startSession ss newId pwHash now) = 1 := by
  have h := countActive_endExistingSessions now ss
  simp only [countActive] at h ⊢
  simp [startSession, List.filter_cons, h]

theorem countActive_applySessionOp (ss : List Session) (op : SessionOp)
    (h : countActive ss ≤ 1) : countActive (applySessionOp ss op) ≤ 1 := by
  cases op with
  | start newId pwHash now =>
      simp [applySessionOp, countActive_startSession]
  | join => simpa [applySessionOp, joinSession] using h
  | stop sid now => exact le_trans (countActive_endSession ss sid now) h

theorem countActive_foldl (ops : List SessionOp) (ss : List Session)
    (h : countActive ss ≤ 1) : countActive (ops.foldl applySessionOp ss) ≤ 1 := by
  induction ops generalizing ss with
  | nil => simpa using h
  | cons op rest ih =>
      exact ih (applySessionOp ss op) (countActive_applySessionOp ss op h)

theorem map_error_update_fresh (l : List PromptSubmission) (newId msg : String)
    (hfresh : ∀ s ∈ l, s.id ≠ newId) :
    (l.map (fun s => if s.id = newId then
        { s with status := SubmissionStatus.ERROR, errorMessage := some msg }
      else s)) = l := by
  induction l with
  | nil => rfl
  | cons a rest ih =>
      have ha : a.id ≠ newId := hfresh a (by simp)
      simp [ha, ih (fun s hs => hfresh s (by simp [hs]))]

/-- C2: `startSession` deactivates every active session before inserting the
new active one, so every `Session` table reachable from the empty store
through start/join/end steps has at most one row with `isActive = true`;
moreover a start step always leaves exactly one active row. -/
theorem at_most_one_active_session :
    (∀ ss newId pwHash now, countActive (startSession ss newId pwHash now) = 1) ∧
    (∀ ops : List SessionOp, countActive (ops.foldl applySessionOp []) ≤ 1) := by
  constructor
  · exact countActive_startSession
  · intro ops
    exact countActive_foldl ops [] (by simp [countActive])

/-- C9: a caller presenting no session id, or a session id matching no
active session, gets a 200 response with an empty submissions list from the
list endpoint, not an authentication error. -/
theorem listGET_unauthenticated_empty (db : DB) (auth : Auth)
    (h : auth.sessionId = none ∨
      ∀ sid, auth.sessionId = some sid →
        ∀ s ∈ db.sessions, ¬(s.id = sid ∧ s.isActive)) :
    listGET db auth = ⟨200, []⟩ := by
  cases hsid : auth.sessionId with
  | none => simp [listGET, hsid]
  | some sid =>
      rcases h with h | h
      · rw [hsid] at h; cases h
      · have hnone : db.sessions.find? (fun s => decide (s.id = sid ∧ s.isActive)) = none := by
          rw [List.find?_eq_none]
          intro s hs
          simpa using h sid hsid s hs
        simp only [listGET, hsid]
        rw [hnone]

/-- Witness for C9: empty store, no cookies. -/
theorem listGET_unauthenticated_empty_witness :
    listGET ⟨[], [], [], [], []⟩ ⟨none, none, none⟩ = ⟨200, []⟩ :=
  listGET_unauthenticated_empty ⟨[], [], [], [], []⟩ ⟨none, none, none⟩ (Or.inl rfl)

/-- C5: when the remote chat call fails after the student's message has been
persisted, the handler returns the error to the caller (status 500 carrying
the message), the student message remains in the store, and no AI message is
written — nothing is rolled back. -/
theorem postMessage_remote_failure (db : DB) (sid stid threadId content : String)
    (msgId aiId : String) (now : Nat) (e : String) (t : ChatThread)
    (hfind : db.threads.find? (fun th => decide (th.id = threadId)) = some t)
    (hsess : t.sessionId = sid) (hown : t.studentId = stid)
    (hlen1 : 1 ≤ (trimWS content).length) (hlen2 : (trimWS content).length ≤ 4000) :
    postMessagePOST db ⟨some sid, some "student", some stid⟩ threadId content
        msgId aiId now (Except.error e) =
      (⟨500, e⟩,
        { db with messages := db.messages ++
            [{ id := msgId, content := trimWS content, sender := Sender.STUDENT,
               threadId := threadId, studentId := some stid }] }) := by
  have h1 : ¬ (trimWS content).length < 1 := by omega
  have h2 : ¬ (trimWS content).length > 4000 := by omega
  simp [postMessagePOST, hfind, hsess, hown, h1, h2]

/-- Witness for C5: one owned thread, remote failure "boom". -/
theorem postMessage_remote_failure_witness :
    postMessagePOST ⟨[], [], [], [⟨"t1", "Chat", "s1", "a1", 0, 0⟩], []⟩
        ⟨some "s1", some "student", some "a1"⟩ "t1" "hi" "m1" "m2" 1
        (Except.error "boom") =
      (⟨500, "boom"⟩, ⟨[], [], [], [⟨"t1", "Chat", "s1", "a1", 0, 0⟩],
        [⟨"m1", "hi", Sender.STUDENT, "t1", some "a1"⟩]⟩) := by
  have h := postMessage_remote_failure ⟨[], [], [], [⟨"t1", "Chat", "s1", "a1", 0, 0⟩], []⟩
    "s1" "a1" "t1" "hi" "m1" "m2" 1 "boom" ⟨"t1", "Chat", "s1", "a1", 0, 0⟩
    (by decide) (by decide) (by decide) (by decide) (by decide)
  exact h.trans (by decide)

/-- C8: when the remote generation call fails after the submission row was
created, the row is updated to status `ERROR` carrying the provider's error
message, the caller receives a 502 with that message, and the row stays in
the store (the final store is the original plus exactly that row). -/
theorem createAndGenerate_remote_failure (db : DB) (sid stid prompt : String)
    (parentId rootId : Option String) (revIdx : Nat) (newId msg : String)
    (hfresh : ∀ s ∈ db.submissions, s.id ≠ newId) :
    createAndGenerate db sid stid prompt parentId rootId revIdx newId
        (Except.error msg) =
      (⟨502, msg⟩, { db with submissions := db.submissions ++
        [{ id := newId, sessionId := sid, prompt := prompt, role := "STUDENT",
           studentId := some stid, rootSubmissionId := rootId,
           parentSubmissionId := parentId, revisionIndex := revIdx,
           status := SubmissionStatus.ERROR, imageData := none,
           imageMimeType := none, errorMessage := some msg, isShared := false }] }) := by
  simp [createAndGenerate, List.map_append,
    map_error_update_fresh db.submissions newId msg hfresh]

/-- Witness for C8: empty store, remote failure "down". -/
theorem createAndGenerate_remote_failure_witness :
    createAndGenerate ⟨[], [], [], [], []⟩ "s1" "a1" "a red fox" none none 0 "p1"
        (Except.error "down") =
      (⟨502, "down"⟩, ⟨[], [],
        [{ id := "p1", sessionId := "s1", prompt := "a red fox", role := "STUDENT",
           studentId := some "a1", rootSubmissionId := none,
           parentSubmissionId := none, revisionIndex := 0,
           status := SubmissionStatus.ERROR, imageData := none,
           imageMimeType := none, errorMessage := some "down", isShared := false }],
        [], []⟩) := by
  have h := createAndGenerate_remote_failure ⟨[], [], [], [], []⟩ "s1" "a1" "a red fox"
    none none 0 "p1" "down" (by simp)
  simpa using h

/-- C6: `setShared` succeeds only for a student caller on a submission of
the caller's session, owned by the caller's student identity, with status
`SUCCESS`; an attempt on a submission not owned by the caller fails with 403
(AuthError), an attempt on an owned non-`SUCCESS` submission fails with 400
(ValidationError), and in both failure cases the store — in particular the
submission's `isShared` flag — is unchanged. -/
theorem sharePOST_spec :
    (∀ (db : DB) (auth : Auth) (submissionId : String) (share : Bool),
      (sharePOST db auth submissionId share).1.status = 200 →
        ∃ sid stid sub, auth = ⟨some sid, some "student", some stid⟩ ∧
          db.submissions.find? (fun s => decide (s.id = submissionId)) = some sub ∧
          sub.sessionId = sid ∧ sub.studentId = some stid ∧
          sub.status = SubmissionStatus.SUCCESS) ∧
    (∀ (db : DB) (sid stid submissionId : String) (share : Bool)
        (sub : PromptSubmission),
      db.submissions.find? (fun s => decide (s.id = submissionId)) = some sub →
      ¬(sub.sessionId = sid ∧ sub.studentId = some stid) →
      sharePOST db ⟨some sid, some "student", some stid⟩ submissionId share =
        (⟨403, "You can only manage sharing for your own images."⟩, db)) ∧
    (∀ (db : DB) (sid stid submissionId : String) (share : Bool)
        (sub : PromptSubmission),
      db.submissions.find? (fun s => decide (s.id = submissionId)) = some sub →
      sub.sessionId = sid → sub.studentId = some stid →
      sub.status ≠ SubmissionStatus.SUCCESS →
      sharePOST db ⟨some sid, some "student", some stid⟩ submissionId share =
        (⟨400, "Only completed images can be shared."⟩, db)) := by
  refine ⟨?_, ?_, ?_⟩
  · intro db auth submissionId share h
    obtain ⟨osid, orole, ostid⟩ := auth
    cases osid with
    | none => simp [sharePOST] at h
    | some sid =>
      cases orole with
      | none => simp [sharePOST] at h
      | some role =>
        cases ostid with
        | none => simp [sharePOST] at h
        | some stid =>
          by_cases hrole : role = "student"
          · subst hrole
            cases hfind : db.submissions.find? (fun s => decide (s.id = submissionId)) with
            | none => simp [sharePOST, hfind] at h
            | some sub =>
              by_cases hown : sub.sessionId = sid ∧ sub.studentId = some stid
              · by_cases hst : sub.status = SubmissionStatus.SUCCESS
                · exact ⟨sid, stid, sub, rfl, rfl, hown.1, hown.2, hst⟩
                · simp [sharePOST, hfind, hown, hst] at h
              · simp [sharePOST, hfind, hown] at h
          · simp [sharePOST, hrole] at h
  · intro db sid stid submissionId share sub hfind hown
    simp [sharePOST, hfind, hown]
  · intro db sid stid submissionId share sub hfind hses hstu hst
    simp [sharePOST, hfind, hses, hstu, hst]

/-- Witness for C6: student b1 attempting to share a1's completed submission
gets the 403 and the store is unchanged. -/
theorem sharePOST_spec_witness :
    sharePOST ⟨[⟨"s1", "h", true, 0, none⟩], [],
        [⟨"p1", "s1", "cat", "STUDENT", some "a1", none, none, 0,
          SubmissionStatus.SUCCESS, some "img", some "image/png", none, false⟩],
        [], []⟩
      ⟨some "s1", some "student", some "b1"⟩ "p1" true =
      (⟨403, "You can only manage sharing for your own images."⟩,
        ⟨[⟨"s1", "h", true, 0, none⟩], [],
          [⟨"p1", "s1", "cat", "STUDENT", some "a1", none, none, 0,
            SubmissionStatus.SUCCESS, some "img", some "image/png", none, false⟩],
          [], []⟩) :=
  sharePOST_spec.2.1 _ "s1" "b1" "p1" true
    ⟨"p1", "s1", "cat", "STUDENT", some "a1", none, none, 0,
      SubmissionStatus.SUCCESS, some "img", some "image/png", none, false⟩
    (by decide) (by decide)

/-- C7: thread creation requires the student role; with 5 or more existing
threads for the (session, student) pair it fails with the limit message and
creates nothing; with fewer than 5 it succeeds and appends exactly one
thread, titled with the ordinal label `Conversation (count+1)` when no title
was supplied. -/
theorem createThread_spec :
    (∀ (db : DB) (auth : Auth) (title : Option String) (newId : String) (now : Nat),
      (createThreadPOST db auth title newId now).1.status = 200 →
        auth.role = some "student") ∧
    (∀ (db : DB) (sid stid : String) (title : Option String) (newId : String) (now : Nat),
      ((title.map trimWS).getD "").length ≤ 80 →
      5 ≤ threadCountQuery db.threads sid stid →
      createThreadPOST db ⟨some sid, some "student", some stid⟩ title newId now =
        (⟨400, "You have reached the chat limit for this session."⟩, db)) ∧
    (∀ (db : DB) (sid stid : String) (title : Option String) (newId : String) (now : Nat),
      ((title.map trimWS).getD "").length ≤ 80 →
      threadCountQuery db.threads sid stid < 5 →
      ∃ th, createThreadPOST db ⟨some sid, some "student", some stid⟩ title newId now =
          (⟨200, ""⟩, { db with threads := db.threads ++ [th] }) ∧
        th.sessionId = sid ∧ th.studentId = stid ∧
        (title = none →
          th.title = "Conversation " ++ toString (threadCountQuery db.threads sid stid + 1))) := by
  refine ⟨?_, ?_, ?_⟩
  · intro db auth title newId now h
    obtain ⟨osid, orole, ostid⟩ := auth
    cases osid with
    | none => simp [createThreadPOST] at h
    | some sid =>
      cases orole with
      | none => simp [createThreadPOST] at h
      | some role =>
        cases ostid with
        | none => simp [createThreadPOST] at h
        | some stid =>
          by_cases hrole : role = "student"
          · simp [hrole]
          · simp [createThreadPOST, hrole] at h
  · intro db sid stid title newId now hlen hcount
    have hlen1 : ¬ ((title.map trimWS).getD "").length > 80 := by omega
    simp [createThreadPOST, hlen1, hcount]
  · intro db sid stid title newId now hlen hcount
    have hlen1 : ¬ ((title.map trimWS).getD "").length > 80 := by omega
    have hcount1 : ¬ threadCountQuery db.threads sid stid ≥ 5 := by omega
    cases title with
    | none =>
        refine ⟨⟨newId, "Conversation " ++ toString (threadCountQuery db.threads sid stid + 1),
          sid, stid, now, now⟩, ?_, rfl, rfl, fun _ => rfl⟩
        simp [createThreadPOST, hcount1]
    | some t0 =>
        have hlen2 : ¬ (trimWS t0).length > 80 := by simpa using hlen1
        by_cases hl : (trimWS t0).length > 0
        · refine ⟨⟨newId, trimWS t0, sid, stid, now, now⟩, ?_, rfl, rfl, fun hc => nomatch hc⟩
          simp [createThreadPOST, hlen2, hcount1, hl]
        · refine ⟨⟨newId, "Conversation " ++ toString (threadCountQuery db.threads sid stid + 1),
            sid, stid, now, now⟩, ?_, rfl, rfl, fun hc => nomatch hc⟩
          simp [createThreadPOST, hlen2, hcount1, hl]

/-- Witness for C7: first thread of a student in an empty store is created
with the default ordinal title, status 200. -/
theorem createThread_spec_witness :
    (createThreadPOST ⟨[], [], [], [], []⟩ ⟨some "s1", some "student", some "a1"⟩
        none "t1" 7).1.status = 200 := by
  obtain ⟨th, heq, -, -, -⟩ := createThread_spec.2.2 ⟨[], [], [], [], []⟩ "s1" "a1"
    none "t1" 7 (by decide) (by decide)
  rw [heq]

/-- C4: for a refinement request by an authenticated student in an active
session, a parent id matching no submission of the caller's session gives a
404 (NotFoundError); a parent in the session but owned by a different
student identity gives a 403 (AuthError); an owned parent without a
completed image gives a 422 (ValidationError); in all three cases the store
is unchanged — no submission row is created. -/
theorem generatePOST_parent_errors (db : DB) (sid stid prompt pid newId : String)
    (remote : Except String RemoteImage) (sess : Session)
    (hprompt : 5 ≤ prompt.length)
    (hsess : db.sessions.find? (fun s => decide (s.id = sid ∧ s.isActive)) = some sess) :
    ((∀ s ∈ db.submissions, ¬(s.id = pid ∧ s.sessionId = sid)) →
      generatePOST db ⟨some sid, some "student", some stid⟩ prompt (some pid) newId remote =
        (⟨404, "Original image not found for this session."⟩, db)) ∧
    (∀ parent, db.submissions.find? (fun s => decide (s.id = pid)) = some parent →
      parent.sessionId = sid → parent.studentId ≠ some stid →
      generatePOST db ⟨some sid, some "student", some stid⟩ prompt (some pid) newId remote =
        (⟨403, "You can only refine images you created."⟩, db)) ∧
    (∀ parent, db.submissions.find? (fun s => decide (s.id = pid)) = some parent →
      parent.sessionId = sid → parent.studentId = some stid → parent.imageData = none →
      generatePOST db ⟨some sid, some "student", some stid⟩ prompt (some pid) newId remote =
        (⟨422, "Original image data is unavailable for refinement."⟩, db)) := by
  have hp : ¬ prompt.length < 5 := by omega
  have hsess1 : db.sessions.find? (fun s => decide (s.id = sid) && s.isActive) = some sess := by
    simpa using hsess
  refine ⟨?_, ?_, ?_⟩
  · intro hnone
    cases hfind : db.submissions.find? (fun s => decide (s.id = pid)) with
    | none => simp [generatePOST, hp, hsess1, hfind]
    | some parent =>
        have hmem := List.mem_of_find?_eq_some hfind
        have hpid : parent.id = pid := by
          have := List.find?_some hfind
          simpa using this
        have hns : parent.sessionId ≠ sid := fun hs => hnone parent hmem ⟨hpid, hs⟩
        simp [generatePOST, hp, hsess1, hfind, hns]
  · intro parent hfind hpsess hpown
    simp [generatePOST, hp, hsess1, hfind, hpsess, hpown]
  · intro parent hfind hpsess hpown himg
    simp [generatePOST, hp, hsess1, hfind, hpsess, hpown, himg]

/-- Witness for C4: a parent id matching nothing in the store gives 404 and
leaves the store unchanged. -/
theorem generatePOST_parent_errors_witness :
    generatePOST ⟨[⟨"s1", "h", true, 0, none⟩], [], [], [], []⟩
        ⟨some "s1", some "student", some "a1"⟩ "a red fox" (some "nope") "p9"
        (Except.error "x") =
      (⟨404, "Original image not found for this session."⟩,
        ⟨[⟨"s1", "h", true, 0, none⟩], [], [], [], []⟩) :=
  (generatePOST_parent_errors ⟨[⟨"s1", "h", true, 0, none⟩], [], [], [], []⟩
    "s1" "a1" "a red fox" "nope" "p9" (Except.error "x")
    ⟨"s1", "h", true, 0, none⟩ (by decide) (by decide)).1 (by simp)

theorem chainCountQuery_eq_of_confined (subs : List PromptSubmission) (sid rootId : String)
    (hwf : ∀ s ∈ subs,
      (s.id = rootId ∨ s.rootSubmissionId = some rootId) → s.sessionId = sid) :
    chainCountQuery subs sid rootId = chainPendingSuccessCount subs rootId := by
  unfold chainCountQuery chainPendingSuccessCount
  congr 1
  apply List.filter_congr
  intro s hs
  by_cases hchain : s.id = rootId ∨ s.rootSubmissionId = some rootId
  · simp [hchain, hwf s hs hchain]
  · simp [hchain]

theorem createAndGenerate_new_row_fields (db : DB) (sid stid prompt : String)
    (parentId rootId : Option String) (revIdx : Nat) (newId : String)
    (remote : Except String RemoteImage) :
    ∃ s ∈ (createAndGenerate db sid stid prompt parentId rootId revIdx newId
        remote).2.submissions,
      s.id = newId ∧ s.revisionIndex = revIdx ∧ s.rootSubmissionId = rootId := by
  cases remote with
  | ok img =>
      simp only [createAndGenerate]
      refine ⟨_, List.mem_map_of_mem _ (List.mem_append_right _ (List.mem_singleton_self _)), ?_⟩
      simp
  | error msg =>
      simp only [createAndGenerate]
      refine ⟨_, List.mem_map_of_mem _ (List.mem_append_right _ (List.mem_singleton_self _)), ?_⟩
      simp

/-- C1: for a refinement request with a valid parent (present in the
caller's session, owned by the caller's student identity, with a completed
image), the handler counts the chain members sharing the parent's root
(`rootSubmissionId`, or the parent's own id when that is null) whose status
is `PENDING` or `SUCCESS`; when that count is 3 or more the request fails
with the "no refinements remaining" message (400) and the store is
unchanged; otherwise a new submission is created whose `revisionIndex` is
that count and whose `rootSubmissionId` is that root. -/
theorem generatePOST_refinement_cap (db : DB) (sid stid prompt pid newId img : String)
    (remote : Except String RemoteImage) (sess : Session) (parent : PromptSubmission)
    (hprompt : 5 ≤ prompt.length)
    (hsess : db.sessions.find? (fun s => decide (s.id = sid ∧ s.isActive)) = some sess)
    (hfind : db.submissions.find? (fun s => decide (s.id = pid)) = some parent)
    (hpsess : parent.sessionId = sid)
    (hown : parent.studentId = some stid)
    (himg : parent.imageData = some img)
    (hwf : ∀ s ∈ db.submissions,
      (s.id = chainRoot parent ∨ s.rootSubmissionId = some (chainRoot parent)) →
      s.sessionId = sid) :
    (3 ≤ chainPendingSuccessCount db.submissions (chainRoot parent) →
      generatePOST db ⟨some sid, some "student", some stid⟩ prompt (some pid) newId remote =
        (⟨400, "This image has no refinements remaining."⟩, db)) ∧
    (chainPendingSuccessCount db.submissions (chainRoot parent) < 3 →
      ∃ s ∈ (generatePOST db ⟨some sid, some "student", some stid⟩ prompt (some pid)
          newId remote).2.submissions,
        s.id = newId ∧
        s.revisionIndex = chainPendingSuccessCount db.submissions (chainRoot parent) ∧
        s.rootSubmissionId = some (chainRoot parent)) := by
  have hp : ¬ prompt.length < 5 := by omega
  have hsess1 : db.sessions.find? (fun s => decide (s.id = sid) && s.isActive) = some sess := by
    simpa using hsess
  have hbridge : chainCountQuery db.submissions sid (parent.rootSubmissionId.getD parent.id) =
      chainPendingSuccessCount db.submissions (parent.rootSubmissionId.getD parent.id) :=
    chainCountQuery_eq_of_confined db.submissions sid _ (by simpa [chainRoot] using hwf)
  simp only [chainRoot] at *
  constructor
  · intro hge
    have hge1 : chainCountQuery db.submissions sid (parent.rootSubmissionId.getD parent.id) ≥ 3 := by
      rw [hbridge]; exact hge
    simp [generatePOST, hp, hsess1, hfind, hpsess, hown, himg, hge1]
  · intro hlt
    have hlt1 : ¬ chainCountQuery db.submissions sid (parent.rootSubmissionId.getD parent.id) ≥ 3 := by
      rw [hbridge]; omega
    have hres : generatePOST db ⟨some sid, some "student", some stid⟩ prompt (some pid)
        newId remote =
        createAndGenerate db sid stid prompt (some pid)
          (some (parent.rootSubmissionId.getD parent.id))
          (chainCountQuery db.submissions sid (parent.rootSubmissionId.getD parent.id))
          newId remote := by
      simp [generatePOST, hp, hsess1, hfind, hpsess, hown, himg, hlt1]
    rw [hres, hbridge]
    exact createAndGenerate_new_row_fields db sid stid prompt (some pid)
      (some (parent.rootSubmissionId.getD parent.id))
      (chainPendingSuccessCount db.submissions (parent.rootSubmissionId.getD parent.id))
      newId remote

/-- Witness for C1: refining a completed root whose chain has one
PENDING-or-SUCCESS member creates a row with `revisionIndex = 1` and the
root id as `rootSubmissionId`. -/
theorem generatePOST_refinement_cap_witness :
    ∃ s ∈ (generatePOST
        ⟨[⟨"s1", "h", true, 0, none⟩], [],
          [⟨"p0", "s1", "cat", "STUDENT", some "a1", none, none, 0,
            SubmissionStatus.SUCCESS, some "i1", some "image/png", none, false⟩],
          [], []⟩
        ⟨some "s1", some "student", some "a1"⟩ "a red fox" (some "p0") "p1"
        (Except.ok ("i2", "image/png"))).2.submissions,
      s.id = "p1" ∧ s.revisionIndex = 1 ∧ s.rootSubmissionId = some "p0" := by
  obtain ⟨s, hmem, hid, hrev, hroot⟩ :=
    (generatePOST_refinement_cap
      ⟨[⟨"s1", "h", true, 0, none⟩], [],
        [⟨"p0", "s1", "cat", "STUDENT", some "a1", none, none, 0,
          SubmissionStatus.SUCCESS, some "i1", some "image/png", none, false⟩],
        [], []⟩
      "s1" "a1" "a red fox" "p0" "p1" "i1" (Except.ok ("i2", "image/png"))
      ⟨"s1", "h", true, 0, none⟩
      ⟨"p0", "s1", "cat", "STUDENT", some "a1", none, none, 0,
        SubmissionStatus.SUCCESS, some "i1", some "image/png", none, false⟩
      (by decide) (by decide) (by decide) (by decide) (by decide) (by decide)
      (by decide)).2 (by decide)
  exact ⟨s, hmem, hid, hrev.trans (by decide), hroot.trans (by decide)⟩

theorem listGET_submissions_none (db : DB) (auth : Auth) (sid : String)
    (hsid : auth.sessionId = some sid)
    (hfs : db.sessions.find? (fun s => decide (s.id = sid) && s.isActive) = none) :
    (listGET db auth).submissions = [] := by
  simp [listGET, hsid, hfs]

theorem listGET_submissions_eq (db : DB) (auth : Auth) (sid : String)
    (hsid : auth.sessionId = some sid) (sess : Session)
    (hfs : db.sessions.find? (fun s => decide (s.id = sid) && s.isActive) = some sess) :
    (listGET db auth).submissions =
      (db.submissions.filter (visibleTo auth sid)).map
        (enrich (db.submissions.filter (visibleTo auth sid))) := by
  simp [listGET, hsid, hfs]

theorem enrich_remainingEdits (vis : List PromptSubmission) (s0 : PromptSubmission)
    (hmem : s0 ∈ vis) :
    (enrich vis s0).remainingEdits = 3 - successCountIn vis (chainRoot s0) := by
  unfold enrich
  by_cases hc : successCountIn vis (chainRoot s0) = 0
  · by_cases hst : s0.status = SubmissionStatus.SUCCESS
    · exfalso
      have hm : s0 ∈ vis.filter (fun s =>
          decide (s.status = SubmissionStatus.SUCCESS ∧ chainRoot s = chainRoot s0)) :=
        List.mem_filter.mpr ⟨hmem, by simp [hst]⟩
      have hpos := List.length_pos.mpr (List.ne_nil_of_mem hm)
      unfold successCountIn at hc
      omega
    · simp [hc, hst]
  · simp [hc]

theorem successCountIn_filter_confined (subs : List PromptSubmission)
    (p : PromptSubmission → Bool) (rootId : String)
    (hp : ∀ s ∈ subs, chainRoot s = rootId → s.status = SubmissionStatus.SUCCESS →
      p s = true) :
    successCountIn (subs.filter p) rootId = successCountIn subs rootId := by
  unfold successCountIn
  rw [List.filter_filter]
  congr 1
  apply List.filter_congr
  intro s hs
  by_cases h1 : s.status = SubmissionStatus.SUCCESS ∧ chainRoot s = rootId
  · simp [h1.1, h1.2, hp s hs h1.2 h1.1]
  · have hd : decide (s.status = SubmissionStatus.SUCCESS ∧ chainRoot s = rootId) = false :=
      decide_eq_false h1
    simp [hd]

/-- C3 counterexample: student b1 lists submissions of `c3DB`; the chain of
`c3Root` has two `SUCCESS` members store-wide, so the claim demands
`remainingEdits = max(0, 3 − 2) = 1`, but the endpoint annotates the only
visible member (the shared root) with `remainingEdits = 2`, because it
counts successes only among the rows visible to the caller. -/
theorem listGET_remainingEdits_counterexample :
    ∃ e ∈ (listGET c3DB c3Auth).submissions,
      e.remainingEdits ≠ 3 - specChainSuccessCount c3DB e.sub := by decide

/-- C3 amended: each returned submission is annotated with
`remainingEdits = max(0, 3 − n)` where `n` counts the `SUCCESS` submissions
sharing its chain root among the rows visible to that caller; for a teacher
caller — when the chain does not span sessions — this equals the claim's
store-wide chain success count.  For a student caller the annotation can
exceed the claim's value when chain members are hidden from them. -/
theorem listGET_remainingEdits (db : DB) (auth : Auth) (sid : String)
    (hsid : auth.sessionId = some sid) (e : EnrichedSubmission)
    (he : e ∈ (listGET db auth).submissions) :
    e.remainingEdits =
      3 - successCountIn (db.submissions.filter (visibleTo auth sid)) (chainRoot e.sub) ∧
    (auth.role = some "teacher" →
      (∀ s ∈ db.submissions, chainRoot s = chainRoot e.sub → s.sessionId = sid) →
      e.remainingEdits = 3 - specChainSuccessCount db e.sub) := by
  cases hfs : db.sessions.find? (fun s => decide (s.id = sid) && s.isActive) with
  | none =>
      rw [listGET_submissions_none db auth sid hsid hfs] at he
      cases he
  | some sess =>
      rw [listGET_submissions_eq db auth sid hsid sess hfs] at he
      obtain ⟨s0, hs0, rfl⟩ := List.mem_map.mp he
      have h1 := enrich_remainingEdits (db.submissions.filter (visibleTo auth sid)) s0 hs0
      refine ⟨h1, ?_⟩
      intro hrole hwf
      rw [h1]
      show 3 - successCountIn (db.submissions.filter (visibleTo auth sid)) (chainRoot s0) =
        3 - successCountIn db.submissions (chainRoot s0)
      congr 1
      apply successCountIn_filter_confined
      intro s hs hchain hsucc
      simp [visibleTo, hwf s hs hchain, hrole]

/-- Witness for C3's amended theorem: the teacher's view of `c3DB` annotates
the root with the store-wide value `3 − 2 = 1`. -/
theorem listGET_remainingEdits_witness :
    (enrich (c3DB.submissions.filter (visibleTo ⟨some "s1", some "teacher", none⟩ "s1"))
        c3Root).remainingEdits = 3 - specChainSuccessCount c3DB c3Root := by
  have he : enrich (c3DB.submissions.filter (visibleTo ⟨some "s1", some "teacher", none⟩ "s1"))
      c3Root ∈ (listGET c3DB ⟨some "s1", some "teacher", none⟩).submissions := by decide
  exact (listGET_remainingEdits c3DB ⟨some "s1", some "teacher", none⟩ "s1" rfl _ he).2
    rfl (by decide)

theorem pickFresh_fresh (used : List String) (gen : Nat → String) :
    ∀ (fuel idx : Nat) (u : String) (idx1 : Nat),
      pickFresh used gen idx fuel = some (u, idx1) → lowerString u ∉ used := by
  intro fuel
  induction fuel with
  | zero => intro idx u idx1 h; simp [pickFresh] at h
  | succ n ih =>
      intro idx u idx1 h
      simp only [pickFresh] at h
      split at h
      · exact ih (idx + 1) u idx1 h
      · next hc =>
          simp only [Option.some.injEq, Prod.mk.injEq] at h
          obtain ⟨rfl, -⟩ := h
          intro hmem
          exact hc (List.elem_iff.mpr hmem)

theorem generateUsernames_spec (gen : Nat → String) (fuel : Nat) :
    ∀ (count : Nat) (used : List String) (idx : Nat) (names : List String) (idx2 : Nat),
      generateUsernames used gen idx fuel count = some (names, idx2) →
      names.length = count ∧ (names.map lowerString).Nodup ∧
        ∀ n ∈ names, lowerString n ∉ used := by
  intro count
  induction count with
  | zero =>
      intro used idx names idx2 h
      simp only [generateUsernames, Option.some.injEq, Prod.mk.injEq] at h
      obtain ⟨rfl, -⟩ := h
      simp
  | succ n ih =>
      intro used idx names idx2 h
      simp only [generateUsernames] at h
      split at h
      · cases h
      · next u idx1 hpick =>
          split at h
          · cases h
          · next rest idxr hrec =>
              simp only [Option.some.injEq, Prod.mk.injEq] at h
              obtain ⟨rfl, -⟩ := h
              obtain ⟨hlen, hnodup, hfresh⟩ := ih (lowerString u :: used) idx1 rest idxr hrec
              have hu : lowerString u ∉ used := pickFresh_fresh used gen fuel idx u idx1 hpick
              refine ⟨by simp [hlen], ?_, ?_⟩
              · simp only [List.map_cons, List.nodup_cons]
                refine ⟨?_, hnodup⟩
                intro hmem
                obtain ⟨m, hm, hml⟩ := List.mem_map.mp hmem
                exact hfresh m hm (by rw [hml]; exact List.mem_cons_self _ _)
              · intro m hm
                rcases List.mem_cons.mp hm with rfl | hm2
                · exact hu
                · intro hmem
                  exact hfresh m hm2 (List.mem_cons_of_mem _ hmem)

theorem mkStudents_map_lower (names : List String) (newIds : Nat → String)
    (i : Nat) (pwHash sid : String) :
    (mkStudents names newIds i pwHash sid).map (fun st => lowerString st.username) =
      names.map lowerString := by
  induction names generalizing i with
  | nil => rfl
  | cons n rest ih => simp [mkStudents, ih]

theorem mkStudents_sessionId (names : List String) (newIds : Nat → String)
    (i : Nat) (pwHash sid : String) :
    ∀ st ∈ mkStudents names newIds i pwHash sid, st.sessionId = sid := by
  induction names generalizing i with
  | nil => intro st h; cases h
  | cons n rest ih =>
      intro st h
      rcases List.mem_cons.mp h with rfl | h2
      · rfl
      · exact ih (i + 1) st h2

theorem sessionStudents_append_mk (db : DB) (sid : String) (names : List String)
    (newIds : Nat → String) (pwHash : String) :
    sessionStudents
        { db with students := db.students ++ mkStudents names newIds 0 pwHash sid } sid =
      sessionStudents db sid ++ mkStudents names newIds 0 pwHash sid := by
  unfold sessionStudents
  simp only [List.filter_append]
  congr 1
  apply List.filter_eq_self.mpr
  intro st hst
  simp [mkStudents_sessionId names newIds 0 pwHash sid st hst]

theorem distinct_after_insert (db : DB) (sid : String) (names : List String)
    (newIds : Nat → String) (pwHash : String)
    (hnodup : (names.map lowerString).Nodup)
    (hfresh : ∀ n ∈ names, lowerString n ∉
      (sessionStudents db sid).map (fun st => lowerString st.username))
    (sid0 : String) (hd : UsernamesDistinctCI db sid0) :
    UsernamesDistinctCI
      { db with students := db.students ++ mkStudents names newIds 0 pwHash sid } sid0 := by
  by_cases hs : sid0 = sid
  · subst hs
    unfold UsernamesDistinctCI at *
    rw [sessionStudents_append_mk, List.map_append, mkStudents_map_lower]
    rw [List.nodup_append]
    refine ⟨hd, hnodup, ?_⟩
    intro a ha hb
    obtain ⟨m, hm, rfl⟩ := List.mem_map.mp hb
    exact hfresh m hm ha
  · unfold UsernamesDistinctCI at *
    have heq : sessionStudents
        { db with students := db.students ++ mkStudents names newIds 0 pwHash sid } sid0 =
        sessionStudents db sid0 := by
      unfold sessionStudents
      simp only [List.filter_append]
      have hnil : (mkStudents names newIds 0 pwHash sid).filter
          (fun st => decide (st.sessionId = sid0)) = [] := by
        apply List.filter_eq_nil_iff.mpr
        intro st hst
        have := mkStudents_sessionId names newIds 0 pwHash sid st hst
        simp [this]
        intro hbad
        exact hs hbad.symm
      rw [hnil, List.append_nil]
    rw [heq]
    exact hd

theorem studentsGeneratePOST_preserves (db : DB) (auth : Auth) (count fuel : Nat)
    (gen newIds : Nat → String) (pwHash : String) (resp : ApiResponse) (db1 : DB)
    (hrun : studentsGeneratePOST db auth count gen fuel newIds pwHash = some (resp, db1))
    (sid0 : String) (hd : UsernamesDistinctCI db sid0) : UsernamesDistinctCI db1 sid0 := by
  obtain ⟨osid, orole, ostid⟩ := auth
  cases osid with
  | none =>
      simp only [studentsGeneratePOST, Option.some.injEq, Prod.mk.injEq] at hrun
      rw [← hrun.2]; exact hd
  | some sid =>
    cases orole with
    | none =>
        simp only [studentsGeneratePOST, Option.some.injEq, Prod.mk.injEq] at hrun
        rw [← hrun.2]; exact hd
    | some role =>
      by_cases hrole : role = "teacher"
      · subst hrole
        by_cases hb : count < 1 ∨ count > 50
        · simp only [studentsGeneratePOST, if_true] at hrun
          rw [if_pos hb] at hrun
          simp only [Option.some.injEq, Prod.mk.injEq] at hrun
          rw [← hrun.2]; exact hd
        · simp only [studentsGeneratePOST, if_true] at hrun
          rw [if_neg hb] at hrun
          cases hgen : generateUsernames
              ((sessionStudents db sid).map (fun st => lowerString st.username))
              gen 0 fuel count with
          | none => rw [hgen] at hrun; simp at hrun
          | some p =>
              obtain ⟨names, k⟩ := p
              rw [hgen] at hrun
              simp only [Option.some.injEq, Prod.mk.injEq] at hrun
              obtain ⟨-, hdb⟩ := hrun
              subst hdb
              obtain ⟨-, hnodup, hfresh⟩ :=
                generateUsernames_spec gen fuel count _ 0 names k hgen
              exact distinct_after_insert db sid names newIds pwHash hnodup hfresh sid0 hd
      · simp only [studentsGeneratePOST, if_neg hrole, Option.some.injEq,
          Prod.mk.injEq] at hrun
        rw [← hrun.2]; exact hd

theorem runGenCalls_preserves (calls : List GenCall) (db0 : DB) (sid0 : String)
    (hd : UsernamesDistinctCI db0 sid0) :
    UsernamesDistinctCI (runGenCalls db0 calls) sid0 := by
  induction calls generalizing db0 with
  | nil => simpa [runGenCalls] using hd
  | cons c rest ih =>
      simp only [runGenCalls]
      cases hres : studentsGeneratePOST db0 c.auth c.count c.gen c.fuel c.newIds c.pwHash with
      | none => exact ih db0 hd
      | some p =>
          obtain ⟨resp, db1⟩ := p
          exact ih db1 (studentsGeneratePOST_preserves db0 c.auth c.count c.fuel c.gen
            c.newIds c.pwHash resp db1 hres sid0 hd)

/-- C10: a credential-generation call by the session's teacher with a count
between 1 and 50 whose retry loop finishes creates exactly `count` new
students in the session, whose usernames are pairwise distinct and distinct
from every username already in the session under case-insensitive
comparison; consequently any sequence of generation calls preserves
case-insensitive distinctness of every session's usernames. -/
theorem studentsGenerate_spec (db : DB) (sid : String) (count fuel : Nat)
    (gen newIds : Nat → String) (pwHash : String) (resp : ApiResponse) (db1 : DB)
    (hc1 : 1 ≤ count) (hc2 : count ≤ 50)
    (hrun : studentsGeneratePOST db ⟨some sid, some "teacher", none⟩ count gen fuel
      newIds pwHash = some (resp, db1)) :
    (∃ names : List String,
      db1 = { db with students := db.students ++ mkStudents names newIds 0 pwHash sid } ∧
      names.length = count ∧ (names.map lowerString).Nodup ∧
      ∀ n ∈ names, lowerString n ∉
        (sessionStudents db sid).map (fun st => lowerString st.username)) ∧
    (sessionStudents db1 sid).length = (sessionStudents db sid).length + count ∧
    (UsernamesDistinctCI db sid → UsernamesDistinctCI db1 sid) ∧
    (∀ (db0 : DB) (calls : List GenCall) (sid0 : String),
      UsernamesDistinctCI db0 sid0 → UsernamesDistinctCI (runGenCalls db0 calls) sid0) := by
  have hb : ¬ (count < 1 ∨ count > 50) := by omega
  simp only [studentsGeneratePOST, if_true] at hrun
  rw [if_neg hb] at hrun
  cases hgen : generateUsernames
      ((sessionStudents db sid).map (fun st => lowerString st.username))
      gen 0 fuel count with
  | none => rw [hgen] at hrun; simp at hrun
  | some p =>
    obtain ⟨names, k⟩ := p
    rw [hgen] at hrun
    simp only [Option.some.injEq, Prod.mk.injEq] at hrun
    obtain ⟨-, hdb⟩ := hrun
    obtain ⟨hlen, hnodup, hfresh⟩ := generateUsernames_spec gen fuel count _ 0 names k hgen
    subst hdb
    refine ⟨⟨names, rfl, hlen, hnodup, hfresh⟩, ?_, ?_, ?_⟩
    · rw [sessionStudents_append_mk, List.length_append]
      have hmk : (mkStudents names newIds 0 pwHash sid).length = names.length := by
        have h2 := congrArg List.length (mkStudents_map_lower names newIds 0 pwHash sid)
        simpa using h2
      omega
    · intro hd
      exact distinct_after_insert db sid names newIds pwHash hnodup hfresh sid hd
    · intro db0 calls sid0 hd
      exact runGenCalls_preserves calls db0 sid0 hd

/-- Witness for C10: generating one student in a fresh session adds exactly
one student row. -/
theorem studentsGenerate_spec_witness :
    (sessionStudents ⟨[⟨"s1", "h", true, 0, none⟩],
        [⟨"n1", "Zed", "pw", "s1"⟩], [], [], []⟩ "s1").length =
      (sessionStudents ⟨[⟨"s1", "h", true, 0, none⟩], [], [], [], []⟩ "s1").length + 1 :=
  (studentsGenerate_spec ⟨[⟨"s1", "h", true, 0, none⟩], [], [], [], []⟩ "s1" 1 1
    (fun _ => "Zed") (fun _ => "n1") "pw" ⟨200, ""⟩
    ⟨[⟨"s1", "h", true, 0, none⟩], [⟨"n1", "Zed", "pw", "s1"⟩], [], [], []⟩
    (by omega) (by omega) (by decide)).2.1

end Classroom
